import Mathlib

/-!
Shallow embedding of the data-preparation pipeline of `app_big.py`, the
educational dashboard for the municipalities of Espírito Santo.

Numeric dataframe cells are modelled as `Option ℚ`, with `none` standing
for pandas NaN/NULL; a generic dataframe is a list of column names plus
rows of cells read positionally.  The pandas reductions are modelled with
their library semantics: column `sum` skips nulls and returns 0 on an empty
column, column `mean` skips nulls and is NaN (`none`) when no non-null
value exists.  The BigQuery round trip is represented by an explicit
`Except` outcome handed to `run_query`.
-/

namespace Dashboard

/-- Value of one dataframe cell: a number, a text value, or null (NaN/None). -/
inductive Cell where
  | num (q : ℚ)
  | text (s : String)
  | null
deriving DecidableEq, Repr

/-- Generic dataframe: named columns and rows of cells; `pd.DataFrame()`,
the empty frame with no columns, is `⟨[], []⟩`. -/
structure DF where
  cols : List String
  rows : List (List Cell)
deriving DecidableEq, Repr

/-- Empty dataframe `pd.DataFrame()`, the recovery value of `run_query`. -/
def DF.emptyFrame : DF := ⟨[], []⟩

/-- Embeds `run_query` (src lines 254–265): the warehouse call's outcome is
an explicit `Except` value; the `except` branch returns `pd.DataFrame()`
after showing the error, and no exception escapes to the caller. -/
def run_query (result : Except String DF) : DF :=
  match result with
  | .ok df => df
  | .error _ => DF.emptyFrame

/-- Column selection `df[c]`: pandas `KeyError` when the column is absent,
modelled as `Except.error c`. -/
def getCol (df : DF) (c : String) : Except String (List Cell) :=
  match df.cols.findIdx? (· == c) with
  | none => .error c
  | some i => .ok (df.rows.map (fun r => r.getD i .null))

/-- Value of a decimal digit character, or `none`. -/
def digitVal (c : Char) : Option ℕ :=
  if c.isDigit then some (c.toNat - 48) else none

/-- Accumulating decimal parser over the characters of a numeral. -/
def parseNatCore : List Char → ℕ → Option ℕ
  | [], acc => some acc
  | c :: cs, acc =>
    match digitVal c with
    | some d => parseNatCore cs (acc * 10 + d)
    | none => none

/-- Numeric parsing used by the model of `pd.to_numeric(·, errors='coerce')`:
optionally signed integer literals parse, any other text fails. -/
def parseNum (s : String) : Option ℚ :=
  match s.data with
  | [] => none
  | '-' :: cs =>
    match cs with
    | [] => none
    | _ => (parseNatCore cs 0).map (fun n => -(n : ℚ))
  | cs => (parseNatCore cs 0).map (fun n => (n : ℚ))

/-- Cellwise `pd.to_numeric(·, errors='coerce')`: numbers pass through, text
that parses becomes a number, text that fails to parse becomes null, null
stays null; no input raises. -/
def toNumericCell : Cell → Cell
  | .num q => .num q
  | .text s =>
    match parseNum s with
    | some q => .num q
    | none => .null
  | .null => .null

/-- Apply `f` to the cell at position `n` of a row, leaving the rest alone. -/
def modifyAt (f : Cell → Cell) : ℕ → List Cell → List Cell
  | _, [] => []
  | 0, c :: cs => f c :: cs
  | n + 1, c :: cs => c :: modifyAt f n cs

/-- Embeds one iteration of the coercion loop (src lines 291–293):
`if col in df.columns: df[col] = pd.to_numeric(df[col], errors='coerce')`. -/
def coerceCol (df : DF) (c : String) : DF :=
  match df.cols.findIdx? (· == c) with
  | none => df
  | some i => ⟨df.cols, df.rows.map (modifyAt toNumericCell i)⟩

/-- The fixed list `numeric_cols` (src lines 284–290). -/
def numeric_cols : List String :=
  ["ideb_2023", "nota_saeb_media_2023", "tx_aprov_2023_1_ao_5_ano",
   "total_estimar_escolas", "escolas_com_internet", "escolas_com_lab_informatica",
   "escolas_com_biblioteca", "escolas_com_quadra_esportes",
   "escolas_com_banheiro_acessivel_pne", "pct_escolas_com_internet",
   "alunos_por_docente", "alunos_por_turma"]

/-- The coercion loop over `numeric_cols` (src lines 291–293). -/
def coerceNumerics (df : DF) : DF := numeric_cols.foldl coerceCol df

/-- The `friendly_names` catalog (src lines 295–303), as the association
list of its entries in source order. -/
def friendly_names : List (String × String) :=
  [("nome_munic", "Município"), ("ideb_2023", "Nota IDEB 2023"),
   ("nota_saeb_media_2023", "Nota Média SAEEB 2023"),
   ("tx_aprov_2023_1_ao_5_ano", "Taxa de Aprovação (1º-5º ano)"),
   ("total_estimar_escolas", "Total de Escolas"),
   ("escolas_com_internet", "Nº Escolas c/ Internet"),
   ("escolas_com_lab_informatica", "Nº Escolas c/ Lab. de Informática"),
   ("escolas_com_biblioteca", "Nº Escolas c/ Biblioteca"),
   ("escolas_com_quadra_esportes", "Nº Escolas c/ Quadra"),
   ("escolas_com_banheiro_acessivel_pne", "Nº Escolas c/ Acessibilidade"),
   ("pct_escolas_com_internet", "% Escolas com Internet"),
   ("alunos_por_docente", "Média de Alunos por Docente"),
   ("alunos_por_turma", "Média de Alunos por Turma")]

/-- Embeds `df.rename(columns=m)` (src line 304): a column in the mapping
takes its display label, an unmapped column keeps its identifier. -/
def rename_columns (m : List (String × String)) (df : DF) : DF :=
  ⟨df.cols.map (fun c => (m.lookup c).getD c), df.rows⟩

/-- Reverse lookup label → internal identifier, with Python dict-build
semantics (`{v: k for k, v in m.items()}`: a later duplicate value would
overwrite an earlier one, hence the last match wins), as used to build
`opcoes_correlacao` (src line 504). -/
def reverse_lookup (m : List (String × String)) (label : String) : Option String :=
  (m.reverse.find? (fun p => p.2 == label)).map (·.1)

/-- Embeds `load_and_prepare_data` (src lines 267–305) after the warehouse
round trip: the join result comes back through `run_query`, the numeric
columns are coerced, and only then are columns renamed to display labels. -/
def load_and_prepare_data (queryResult : Except String DF) :
    DF × List (String × String) :=
  let df := run_query queryResult
  (rename_columns friendly_names (coerceNumerics df), friendly_names)

/-- SQL value of the `cod_munic` key column, which the warehouse may store
as an integer or as a string; `CAST(· AS STRING)` is `castString`. -/
inductive SqlVal where
  | int (n : ℤ)
  | str (s : String)
deriving DecidableEq, Repr

/-- The `CAST(· AS STRING)` coercion applied to both join keys. -/
def castString : SqlVal → String
  | .int n => toString n
  | .str s => s

/-- One row of the IDEB table (`t1.*` in the join query). -/
structure IdebRow where
  cod_munic : SqlVal
  nome_munic : String
  ideb_2023 : Option ℚ
  nota_saeb_media_2023 : Option ℚ
  tx_aprov_2023_1_ao_5_ano : Option ℚ
deriving DecidableEq, Repr

/-- One row of the censo table, restricted to the columns the join selects. -/
structure CensoRow where
  cod_munic : SqlVal
  total_estimar_escolas : Option ℚ
  escolas_com_internet : Option ℚ
  escolas_com_lab_informatica : Option ℚ
  escolas_com_biblioteca : Option ℚ
  escolas_com_quadra_esportes : Option ℚ
  escolas_com_banheiro_acessivel_pne : Option ℚ
  pct_escolas_com_internet : Option ℚ
  alunos_por_docente : Option ℚ
  alunos_por_turma : Option ℚ
deriving DecidableEq, Repr

/-- Matches of one IDEB row against the censo table under the textual key
comparison `CAST(t1.cod_munic AS STRING) = CAST(t2.cod_munic AS STRING)`. -/
def joinMatches (censo : List CensoRow) (t1 : IdebRow) : List CensoRow :=
  censo.filter (fun t2 => castString t2.cod_munic == castString t1.cod_munic)

/-- One IDEB row's contribution to the LEFT JOIN: its matches, or a single
row whose censo half is `none` (all infrastructure columns NULL) when no
code matches. -/
def joinOne (censo : List CensoRow) (t1 : IdebRow) : List (IdebRow × Option CensoRow) :=
  match joinMatches censo t1 with
  | [] => [(t1, none)]
  | ms => ms.map (fun t2 => (t1, some t2))

/-- Embeds the SQL `LEFT JOIN` issued by `load_and_prepare_data`
(src lines 272–281). -/
def left_join : List IdebRow → List CensoRow → List (IdebRow × Option CensoRow)
  | [], _ => []
  | t1 :: rest, censo => joinOne censo t1 ++ left_join rest censo

/-- Embeds `get_color` (src lines 397–401): RGBA color bucket of an IDEB
score — null → grey, score < 5.8 → red (low), score < 6.5 → yellow
(medium), otherwise green (high). -/
def get_color (nota : Option ℚ) : List ℕ :=
  match nota with
  | none => [200, 200, 200, 100]
  | some n =>
    if n < 5.8 then [220, 53, 69, 160]
    else if n < 6.5 then [255, 193, 7, 160]
    else [40, 167, 69, 160]

/-- One row of the prepared dataset `df_completo`, restricted to the
display-label columns the filtered views read. -/
structure MunicipioRow where
  /-- Column 'Município'. -/
  municipio : String
  /-- Column 'Total de Escolas'. -/
  totalEscolas : Option ℚ
  /-- Column 'Nº Escolas c/ Internet'. -/
  escolasInternet : Option ℚ
  /-- Column 'Nº Escolas c/ Lab. de Informática'. -/
  escolasLab : Option ℚ
  /-- Column 'Nº Escolas c/ Quadra'. -/
  escolasQuadra : Option ℚ
  /-- Column 'Nº Escolas c/ Acessibilidade'. -/
  escolasAcessibilidade : Option ℚ
  /-- Column '% Escolas com Internet'. -/
  pctEscolasInternet : Option ℚ
deriving DecidableEq, Repr

/-- Pandas column `sum`: nulls are skipped, the empty sum is 0. -/
def col_sum (l : List (Option ℚ)) : ℚ := (l.filterMap id).sum

/-- Pandas column `mean`: nulls are skipped; NaN (`none`) when no non-null
value exists. -/
def col_mean (l : List (Option ℚ)) : Option ℚ :=
  if l.filterMap id = [] then none
  else some ((l.filterMap id).sum / (l.filterMap id).length)

/-- Embeds src line 341: `df_completo[df_completo['Município'].isin(sel)]
if municipios_selecionados else df_completo`. -/
def df_filtrado (sel : List String) (df_completo : List MunicipioRow) :
    List MunicipioRow :=
  if sel = [] then df_completo
  else df_completo.filter (fun r => sel.contains r.municipio)

/-- Embeds src line 466: `df_filtrado['Total de Escolas'].sum()`. -/
def total_escolas (df : List MunicipioRow) : ℚ :=
  col_sum (df.map (·.totalEscolas))

/-- Embeds src line 467: `df_filtrado['% Escolas com Internet'].mean()`. -/
def avg_internet (df : List MunicipioRow) : Option ℚ :=
  col_mean (df.map (·.pctEscolasInternet))

/-- Embeds src line 468: the computer-lab KPI, a ratio of sums guarded by
`if total_escolas > 0 else 0`. -/
def avg_lab (df : List MunicipioRow) : ℚ :=
  if total_escolas df > 0 then
    (col_sum (df.map (·.escolasLab)) / total_escolas df) * 100
  else 0

/-- Embeds src line 469: the sports-court KPI. -/
def avg_quadra (df : List MunicipioRow) : ℚ :=
  if total_escolas df > 0 then
    (col_sum (df.map (·.escolasQuadra)) / total_escolas df) * 100
  else 0

/-- Embeds src line 470: the accessibility KPI. -/
def avg_acessibilidade (df : List MunicipioRow) : ℚ :=
  if total_escolas df > 0 then
    (col_sum (df.map (·.escolasAcessibilidade)) / total_escolas df) * 100
  else 0

/-- Modelled from the spec (§4.4 wording applied to the internet column):
the internet KPI *as a ratio of sums weighted by school count*.  This is a
spec-side alternative used only to compare against the code's
`avg_internet`; the code does not compute it. -/
def spec_internet_ratio (df : List MunicipioRow) : ℚ :=
  if total_escolas df > 0 then
    (col_sum (df.map (·.escolasInternet)) / total_escolas df) * 100
  else 0

/-- Numeric reading of one cell (non-numbers are NaN for sorting purposes). -/
def cellNum : Cell → Option ℚ
  | .num q => some q
  | _ => none

/-- Sort key of row `r` at column index `i`. -/
def rowKey (i : ℕ) (r : List Cell) : Option ℚ := cellNum (r.getD i .null)

/-- Insertion into a row list sorted by the strategy `better`. -/
def insertSorted (better : List Cell → List Cell → Bool) (r : List Cell) :
    List (List Cell) → List (List Cell)
  | [] => [r]
  | s :: ss => if better r s then r :: s :: ss else s :: insertSorted better r ss

/-- Insertion sort of rows by the strategy `better`. -/
def sortRows (better : List Cell → List Cell → Bool) :
    List (List Cell) → List (List Cell)
  | [] => []
  | r :: rs => insertSorted better r (sortRows better rs)

/-- Model of `DataFrame.nlargest(n, c)` (src line 447): `KeyError` when
column `c` is absent — as on the empty frame a failed query returns —
otherwise the `n` rows with the largest non-null values in `c`. -/
def nlargest (df : DF) (n : ℕ) (c : String) : Except String DF :=
  match df.cols.findIdx? (· == c) with
  | none => .error c
  | some i =>
    let valid := df.rows.filter (fun r => (rowKey i r).isSome)
    .ok ⟨df.cols,
      (sortRows (fun r s => decide ((rowKey i s).getD 0 ≤ (rowKey i r).getD 0)) valid).take n⟩

/-- Model of `DataFrame.nsmallest(n, c)` (src line 455). -/
def nsmallest (df : DF) (n : ℕ) (c : String) : Except String DF :=
  match df.cols.findIdx? (· == c) with
  | none => .error c
  | some i =>
    let valid := df.rows.filter (fun r => (rowKey i r).isSome)
    .ok ⟨df.cols,
      (sortRows (fun r s => decide ((rowKey i r).getD 0 ≤ (rowKey i s).getD 0)) valid).take n⟩

/-- Embeds the ranking charts of the 'Visão Geral' section (src lines
445–459): `df_top5` and `df_bottom5` are computed from `df_filtrado`
directly, with no emptiness guard in this section. -/
def secao_visao_geral_ranking (dfFilt : DF) : Except String (DF × DF) := do
  let top5 ← nlargest dfFilt 5 "Nota IDEB 2023"
  let bottom5 ← nsmallest dfFilt 5 "Nota IDEB 2023"
  return (top5, bottom5)

/-- Column sum over the generic dataframe (pandas skipna sum). -/
def dfColSum (df : DF) (c : String) : Except String ℚ :=
  (getCol df c).map (fun cells => (cells.filterMap cellNum).sum)

/-- Embeds the KPI block of the 'Análise de Infraestrutura' section (src
lines 465–476): the `if not df_filtrado.empty` guard comes first, and the
`st.warning` branch where no statistic is computed is `some` replaced by
`none`.  The payload is (total, internet mean, lab KPI, quadra KPI,
acessibilidade KPI). -/
def secao_infraestrutura (dfFilt : DF) :
    Except String (Option (ℚ × Option ℚ × ℚ × ℚ × ℚ)) :=
  if dfFilt.rows = [] then .ok none
  else do
    let tot ← dfColSum dfFilt "Total de Escolas"
    let internet ← (getCol dfFilt "% Escolas com Internet").map
      (fun cells => col_mean (cells.map cellNum))
    let lab ← dfColSum dfFilt "Nº Escolas c/ Lab. de Informática"
    let quadra ← dfColSum dfFilt "Nº Escolas c/ Quadra"
    let acess ← dfColSum dfFilt "Nº Escolas c/ Acessibilidade"
    return some (tot, internet,
      if tot > 0 then lab / tot * 100 else 0,
      if tot > 0 then quadra / tot * 100 else 0,
      if tot > 0 then acess / tot * 100 else 0)

/-! ### Verified properties -/

/-- C1: for every filtered view, each facility-percentage KPI (computer
lab, sports court, accessibility) equals 100 times that facility-count
sum over the view divided by the total-school-count sum over the view,
and whenever the total-school-count sum is zero (empty view or all-null
column) the KPI is exactly 0 — no division error and no NaN. -/
theorem facility_kpis_ratio_of_sums (df : List MunicipioRow) :
    (0 < total_escolas df →
      avg_lab df = 100 * col_sum (df.map (·.escolasLab)) / total_escolas df ∧
      avg_quadra df = 100 * col_sum (df.map (·.escolasQuadra)) / total_escolas df ∧
      avg_acessibilidade df =
        100 * col_sum (df.map (·.escolasAcessibilidade)) / total_escolas df) ∧
    (total_escolas df = 0 →
      avg_lab df = 0 ∧ avg_quadra df = 0 ∧ avg_acessibilidade df = 0) := by
  constructor
  · intro h
    unfold avg_lab avg_quadra avg_acessibilidade
    rw [if_pos h, if_pos h, if_pos h]
    exact ⟨by ring, by ring, by ring⟩
  · intro h
    simp [avg_lab, avg_quadra, avg_acessibilidade, h]

/-- Witness for `facility_kpis_ratio_of_sums`, on the spec's example pair
(A: 10 schools, 5 with the facility; B: 0 schools): the KPI over both rows
is 50 and over B alone is 0. -/
theorem facility_kpis_ratio_of_sums_witness :
    0 < total_escolas
        [⟨"A", some 10, some 5, some 5, some 5, some 5, some 50⟩,
         ⟨"B", some 0, some 0, some 0, some 0, some 0, none⟩] ∧
    avg_lab
        [⟨"A", some 10, some 5, some 5, some 5, some 5, some 50⟩,
         ⟨"B", some 0, some 0, some 0, some 0, some 0, none⟩] = 50 ∧
    total_escolas [⟨"B", some 0, some 0, some 0, some 0, some 0, none⟩] = 0 ∧
    avg_lab [⟨"B", some 0, some 0, some 0, some 0, some 0, none⟩] = 0 := by
  have h1 : 0 < total_escolas
      [⟨"A", some 10, some 5, some 5, some 5, some 5, some 50⟩,
       ⟨"B", some 0, some 0, some 0, some 0, some 0, none⟩] := by
    norm_num [total_escolas, col_sum, List.filterMap_cons, List.sum_cons]
  have h2 : total_escolas [⟨"B", some 0, some 0, some 0, some 0, some 0, none⟩] = 0 := by
    norm_num [total_escolas, col_sum, List.filterMap_cons, List.sum_cons]
  refine ⟨h1, ?_, h2, ((facility_kpis_ratio_of_sums _).2 h2).1⟩
  rw [((facility_kpis_ratio_of_sums _).1 h1).1]
  norm_num [total_escolas, col_sum, List.filterMap_cons, List.sum_cons]

/-- C2 (refuted by the code): on the empty base frame a failed warehouse
query returns, the 'Visão Geral' ranking still computes `nlargest` —
there is no emptiness guard in that section — and hits a missing-column
access (`KeyError` on 'Nota IDEB 2023'); the guarded 'Análise de
Infraestrutura' section instead stops at its explicit emptiness check.
An empty base dataset forces an empty selection, so `df_filtrado` is the
empty frame itself. -/
theorem visao_geral_ranking_unguarded :
    secao_visao_geral_ranking DF.emptyFrame = .error "Nota IDEB 2023" ∧
    secao_infraestrutura DF.emptyFrame = .ok none :=
  ⟨rfl, rfl⟩

/-- C5: `get_color` sends a non-null score below 5.8 to the low (red)
bucket, a score in [5.8, 6.4] to the medium (yellow) bucket, and a score
at or above 6.5 to the high (green) bucket; on [5.79, 5.8, 6.49, 6.5] it
yields [low, medium, medium, high]. -/
theorem get_color_buckets :
    (∀ q : ℚ, q < 5.8 → get_color (some q) = [220, 53, 69, 160]) ∧
    (∀ q : ℚ, 5.8 ≤ q → q ≤ 6.4 → get_color (some q) = [255, 193, 7, 160]) ∧
    (∀ q : ℚ, 6.5 ≤ q → get_color (some q) = [40, 167, 69, 160]) ∧
    [some (5.79 : ℚ), some 5.8, some 6.49, some 6.5].map get_color =
      [[220, 53, 69, 160], [255, 193, 7, 160], [255, 193, 7, 160],
       [40, 167, 69, 160]] := by
  refine ⟨?_, ?_, ?_, by norm_num [get_color]⟩
  · intro q h
    simp [get_color, h]
  · intro q h1 h2
    have hn : ¬ q < 5.8 := not_lt.mpr h1
    have hy : q < 6.5 := by linarith
    simp [get_color, hn, hy]
  · intro q h
    have hn1 : ¬ q < 5.8 := by intro hc; linarith
    have hn2 : ¬ q < 6.5 := not_lt.mpr h
    simp [get_color, hn1, hn2]

/-- Witness for `get_color_buckets` at the scores 5, 6 and 7. -/
theorem get_color_buckets_witness :
    get_color (some (5 : ℚ)) = [220, 53, 69, 160] ∧
    get_color (some (6 : ℚ)) = [255, 193, 7, 160] ∧
    get_color (some (7 : ℚ)) = [40, 167, 69, 160] :=
  ⟨get_color_buckets.1 5 (by norm_num),
   get_color_buckets.2.1 6 (by norm_num) (by norm_num),
   get_color_buckets.2.2.1 7 (by norm_num)⟩

/-- C7: `run_query` recovers from any warehouse failure by returning the
empty dataset — no exception reaches the caller — and returns the tabular
result on success. -/
theorem run_query_total_spec :
    (∀ e : String, run_query (.error e) = DF.emptyFrame) ∧
    (∀ df : DF, run_query (.ok df) = df) :=
  ⟨fun _ => rfl, fun _ => rfl⟩

/-- C9: the derived percentage KPIs are invariant under any permutation of
the rows of the view. -/
theorem facility_kpis_perm_invariant (df₁ df₂ : List MunicipioRow)
    (h : df₁.Perm df₂) :
    avg_lab df₁ = avg_lab df₂ ∧ avg_quadra df₁ = avg_quadra df₂ ∧
    avg_acessibilidade df₁ = avg_acessibilidade df₂ := by
  have hsum : ∀ f : MunicipioRow → Option ℚ,
      col_sum (df₁.map f) = col_sum (df₂.map f) := by
    intro f
    unfold col_sum
    exact ((h.map f).filterMap id).sum_eq
  have ht : total_escolas df₁ = total_escolas df₂ := hsum _
  unfold avg_lab avg_quadra avg_acessibilidade
  rw [ht, hsum (fun r => r.escolasLab), hsum (fun r => r.escolasQuadra),
    hsum (fun r => r.escolasAcessibilidade)]
  exact ⟨rfl, rfl, rfl⟩

/-- Witness for `facility_kpis_perm_invariant` on a two-row swap. -/
theorem facility_kpis_perm_invariant_witness :
    avg_lab [⟨"B", some 2, some 1, some 1, some 1, some 1, none⟩,
             ⟨"A", some 10, some 5, some 5, some 5, some 5, some 50⟩] =
    avg_lab [⟨"A", some 10, some 5, some 5, some 5, some 5, some 50⟩,
             ⟨"B", some 2, some 1, some 1, some 1, some 1, none⟩] :=
  (facility_kpis_perm_invariant _ _ (List.Perm.swap _ _ _)).1

/-- C4: with an empty selection the filtered view is the base dataset
unchanged; with a non-empty selection it is exactly the rows whose
municipality name is a member of the selection; selecting one known name
(names being unique in the base) yields exactly one row, whose name
matches. -/
theorem df_filtrado_spec (sel : List String) (df : List MunicipioRow) :
    (sel = [] → df_filtrado sel df = df) ∧
    (sel ≠ [] →
      df_filtrado sel df = df.filter (fun r => sel.contains r.municipio)) ∧
    (∀ name : String, (df.map (·.municipio)).Nodup →
      name ∈ df.map (·.municipio) →
      (df_filtrado [name] df).length = 1 ∧
      ∀ r ∈ df_filtrado [name] df, r.municipio = name) := by
  refine ⟨fun h => by simp [df_filtrado, h],
    fun h => by simp only [df_filtrado, if_neg h], ?_⟩
  intro name hnd hmem
  have hne : ([name] : List String) ≠ [] := by simp
  have hf : df_filtrado [name] df = df.filter (fun r => r.municipio == name) := by
    unfold df_filtrado
    rw [if_neg hne]
    apply List.filter_congr
    intro r _
    simp [List.contains_cons, beq_eq_decide]
  have hcount : (df.map (·.municipio)).count name =
      df.countP (fun r => r.municipio == name) := by
    rw [List.count_eq_countP, List.countP_map]
    rfl
  constructor
  · rw [hf, ← List.countP_eq_length_filter, ← hcount,
      List.count_eq_one_of_mem hnd hmem]
  · intro r hr
    rw [hf] at hr
    simpa using (List.mem_filter.mp hr).2

/-- Witness for `df_filtrado_spec`: the empty selection keeps both rows,
and selecting the one known name "A" keeps exactly one row. -/
theorem df_filtrado_spec_witness :
    df_filtrado [] [⟨"A", none, none, none, none, none, none⟩,
                    ⟨"B", none, none, none, none, none, none⟩] =
      [⟨"A", none, none, none, none, none, none⟩,
       ⟨"B", none, none, none, none, none, none⟩] ∧
    (df_filtrado ["A"] [⟨"A", none, none, none, none, none, none⟩,
                        ⟨"B", none, none, none, none, none, none⟩]).length = 1 :=
  ⟨(df_filtrado_spec [] _).1 rfl,
   ((df_filtrado_spec ["A"] _).2.2 "A" (by decide) (by decide)).1⟩

/-- C8: the field catalog's forward mapping is injective (no two internal
identifiers share a display label), and renaming an internal identifier to
its display label then reverse-looking that label up returns the original
identifier, for every entry of the catalog. -/
theorem friendly_names_roundtrip :
    (friendly_names.map Prod.snd).Nodup ∧
    ∀ p ∈ friendly_names,
      (friendly_names.lookup p.1).getD p.1 = p.2 ∧
      reverse_lookup friendly_names p.2 = some p.1 := by
  decide

/-- Witness for `friendly_names_roundtrip` at the composite-score field. -/
theorem friendly_names_roundtrip_witness :
    (friendly_names.lookup "ideb_2023").getD "ideb_2023" = "Nota IDEB 2023" ∧
    reverse_lookup friendly_names "Nota IDEB 2023" = some "ideb_2023" :=
  friendly_names_roundtrip.2 ("ideb_2023", "Nota IDEB 2023") (by decide)

/-- C10: unlike the facility KPIs, the '% Escolas com Internet' KPI is the
unweighted arithmetic mean of the per-municipality percentage values with
nulls skipped — not a school-count-weighted ratio of sums, as the final
conjuncts separate at a concrete view — and on a non-empty view whose
percentage values are all null it is NaN (`none`), not 0. -/
theorem avg_internet_unweighted_mean (df : List MunicipioRow) :
    ((df.map (·.pctEscolasInternet)).filterMap id ≠ [] →
      avg_internet df =
        some (((df.map (·.pctEscolasInternet)).filterMap id).sum /
          ((df.map (·.pctEscolasInternet)).filterMap id).length)) ∧
    (df ≠ [] → (∀ r ∈ df, r.pctEscolasInternet = none) →
      avg_internet df = none ∧ avg_internet df ≠ some 0) ∧
    avg_internet
        [⟨"A", some 10, some 5, none, none, none, some 50⟩,
         ⟨"B", some 90, some 90, none, none, none, some 100⟩] = some 75 ∧
    spec_internet_ratio
        [⟨"A", some 10, some 5, none, none, none, some 50⟩,
         ⟨"B", some 90, some 90, none, none, none, some 100⟩] = 95 ∧
    avg_internet
        [⟨"A", some 10, some 5, none, none, none, some 50⟩,
         ⟨"B", some 90, some 90, none, none, none, some 100⟩] ≠
      some (spec_internet_ratio
        [⟨"A", some 10, some 5, none, none, none, some 50⟩,
         ⟨"B", some 90, some 90, none, none, none, some 100⟩]) := by
  have h3 : avg_internet
      [⟨"A", some 10, some 5, none, none, none, some 50⟩,
       ⟨"B", some 90, some 90, none, none, none, some 100⟩] = some 75 := by
    simp only [avg_internet, col_mean, List.map_cons, List.map_nil,
      List.filterMap_cons, List.filterMap_nil]
    rw [if_neg (by simp)]
    norm_num
  have h4 : spec_internet_ratio
      [⟨"A", some 10, some 5, none, none, none, some 50⟩,
       ⟨"B", some 90, some 90, none, none, none, some 100⟩] = 95 := by
    norm_num [spec_internet_ratio, total_escolas, col_sum,
      List.filterMap_cons, List.sum_cons]
  refine ⟨?_, ?_, h3, h4, by rw [h3, h4]; norm_num⟩
  · intro h
    simp only [avg_internet, col_mean, if_neg h]
  · intro hne hnull
    have hempty : (df.map (·.pctEscolasInternet)).filterMap id = [] := by
      rw [List.filterMap_eq_nil_iff]
      intro o ho
      obtain ⟨r, hr, rfl⟩ := List.mem_map.mp ho
      exact hnull r hr
    exact ⟨by simp [avg_internet, col_mean, hempty],
      by simp [avg_internet, col_mean, hempty]⟩

/-- Witness for `avg_internet_unweighted_mean`: a one-row view with a
50% value averages to 50, and a non-empty all-null view gives NaN. -/
theorem avg_internet_unweighted_mean_witness :
    avg_internet [⟨"C", some 4, some 2, none, none, none, some 50⟩] = some 50 ∧
    avg_internet [⟨"D", some 4, some 2, none, none, none, none⟩] = none := by
  constructor
  · have h := (avg_internet_unweighted_mean
        [⟨"C", some 4, some 2, none, none, none, some 50⟩]).1
      (by simp [List.filterMap_cons])
    rw [h]
    norm_num [List.filterMap_cons, List.sum_cons]
  · exact ((avg_internet_unweighted_mean
        [⟨"D", some 4, some 2, none, none, none, none⟩]).2.1
      (by simp) (by intro r hr; simp only [List.mem_singleton] at hr; rw [hr])).1

/-- Each pair produced by `joinOne` carries the IDEB row it came from. -/
lemma joinOne_fst (censo : List CensoRow) (t1 : IdebRow) :
    ∀ p ∈ joinOne censo t1, p.1 = t1 := by
  intro p hp
  unfold joinOne at hp
  cases h : joinMatches censo t1 with
  | nil =>
    rw [h] at hp
    simp only [List.mem_singleton] at hp
    rw [hp]
  | cons m ms =>
    rw [h] at hp
    obtain ⟨t2, _, rfl⟩ := List.mem_map.mp hp
    rfl

/-- With textually unique censo keys at most one censo row matches any
IDEB row. -/
lemma joinMatches_subsingleton (censo : List CensoRow)
    (h : (censo.map (fun t2 => castString t2.cod_munic)).Nodup)
    (t1 : IdebRow) :
    joinMatches censo t1 = [] ∨ ∃ t2, joinMatches censo t1 = [t2] := by
  induction censo with
  | nil => exact Or.inl rfl
  | cons c cs ih =>
    rw [List.map_cons, List.nodup_cons] at h
    unfold joinMatches
    rw [List.filter_cons]
    by_cases hc : (castString c.cod_munic == castString t1.cod_munic) = true
    · rw [if_pos hc]
      right
      refine ⟨c, ?_⟩
      have hnil :
          List.filter
            (fun t2 => castString t2.cod_munic == castString t1.cod_munic) cs = [] := by
        rw [List.filter_eq_nil_iff]
        intro t2 ht2 hbeq
        apply h.1
        rw [List.mem_map]
        refine ⟨t2, ht2, ?_⟩
        have h1 : castString t2.cod_munic = castString t1.cod_munic := by
          simpa using hbeq
        have h2 : castString c.cod_munic = castString t1.cod_munic := by
          simpa using hc
        rw [h1, h2]
      rw [hnil]
    · rw [if_neg hc]
      exact ih h.2

/-- With unique keys `joinOne` yields exactly one pair for its IDEB row. -/
lemma joinOne_eq_single (censo : List CensoRow)
    (h : (censo.map (fun t2 => castString t2.cod_munic)).Nodup)
    (t1 : IdebRow) :
    ∃ o, joinOne censo t1 = [(t1, o)] := by
  unfold joinOne
  rcases joinMatches_subsingleton censo h t1 with hm | ⟨t2, hm⟩ <;> rw [hm]
  · exact ⟨none, rfl⟩
  · exact ⟨some t2, rfl⟩

/-- Membership in the join factors through one IDEB row's contribution. -/
lemma left_join_mem (ideb : List IdebRow) (censo : List CensoRow)
    (p : IdebRow × Option CensoRow) (hp : p ∈ left_join ideb censo) :
    ∃ t1 ∈ ideb, p ∈ joinOne censo t1 := by
  induction ideb with
  | nil => cases hp
  | cons t1 rest ih =>
    simp only [left_join] at hp
    rcases List.mem_append.mp hp with h1 | h2
    · exact ⟨t1, List.mem_cons_self t1 rest, h1⟩
    · obtain ⟨t1', ht1', hp'⟩ := ih h2
      exact ⟨t1', List.mem_cons_of_mem _ ht1', hp'⟩

/-- Shape of one IDEB row's contribution: an unmatched row paired with
`none`, or a pairing with some matching censo row. -/
lemma joinOne_cases (censo : List CensoRow) (t1 : IdebRow)
    (p : IdebRow × Option CensoRow) (hp : p ∈ joinOne censo t1) :
    (p = (t1, none) ∧ joinMatches censo t1 = []) ∨
    ∃ t2, p = (t1, some t2) ∧ t2 ∈ joinMatches censo t1 := by
  unfold joinOne at hp
  cases h : joinMatches censo t1 with
  | nil =>
    rw [h] at hp
    simp only [List.mem_singleton] at hp
    exact Or.inl ⟨hp, rfl⟩
  | cons m ms =>
    rw [h] at hp
    obtain ⟨t2, ht2, rfl⟩ := List.mem_map.mp hp
    right
    exact ⟨t2, rfl, ht2⟩

/-- C3: when the censo keys are textually unique, the left join yields
exactly one output row per IDEB row, drops no IDEB row (projecting the
IDEB half gives the input back), and attaches censo columns exactly to
the rows for which a censo row with the same text-cast code exists —
every other row carries all-null censo columns. -/
theorem left_join_semantics (ideb : List IdebRow) (censo : List CensoRow)
    (h : (censo.map (fun t2 => castString t2.cod_munic)).Nodup) :
    (left_join ideb censo).length = ideb.length ∧
    (left_join ideb censo).map Prod.fst = ideb ∧
    ∀ p ∈ left_join ideb censo,
      (p.2.isSome ↔ ∃ t2 ∈ censo,
        castString t2.cod_munic = castString p.1.cod_munic) ∧
      ∀ t2, p.2 = some t2 →
        t2 ∈ censo ∧ castString t2.cod_munic = castString p.1.cod_munic := by
  refine ⟨?_, ?_, ?_⟩
  · induction ideb with
    | nil => rfl
    | cons t1 rest ih =>
      obtain ⟨o, ho⟩ := joinOne_eq_single censo h t1
      simp [left_join, ho, ih]
  · induction ideb with
    | nil => rfl
    | cons t1 rest ih =>
      obtain ⟨o, ho⟩ := joinOne_eq_single censo h t1
      simp [left_join, ho, ih]
  · intro p hp
    obtain ⟨t1, _, hpj⟩ := left_join_mem ideb censo p hp
    rcases joinOne_cases censo t1 p hpj with ⟨rfl, hnil⟩ | ⟨t2, rfl, hmem⟩
    · constructor
      · simp only [Option.isSome_none, Bool.false_eq_true, false_iff]
        rintro ⟨t2, ht2, hkey⟩
        exact List.filter_eq_nil_iff.mp hnil t2 ht2 (by simpa using hkey)
      · intro t2 ht2
        cases ht2
    · have hf := List.mem_filter.mp hmem
      have hkey : castString t2.cod_munic = castString t1.cod_munic := by
        simpa using hf.2
      constructor
      · simp only [Option.isSome_some, true_iff]
        exact ⟨t2, hf.1, hkey⟩
      · intro t2' ht2'
        have ht : t2' = t2 := by
          simpa using ht2'.symm
        rw [ht]
        exact ⟨hf.1, hkey⟩

/-- Example IDEB table for the join witness: one row whose code matches a
censo row only after text coercion, and one row with no censo match. -/
def exemplo_ideb : List IdebRow :=
  [⟨.int 3205309, "Vitória", some 6, none, none⟩,
   ⟨.int 11, "Fantasma", none, none, none⟩]

/-- Example censo table for the join witness: the key is stored as text. -/
def exemplo_censo : List CensoRow :=
  [⟨.str "3205309", some 10, some 5, some 5, some 5, some 5, some 5,
    some 50, none, none⟩]

/-- Witness for `left_join_semantics`: with an integer IDEB key 3205309 and
a censo key stored as the string "3205309", the join keeps both IDEB rows,
exactly once each. -/
theorem left_join_semantics_witness :
    (left_join exemplo_ideb exemplo_censo).length = 2 ∧
    (left_join exemplo_ideb exemplo_censo).map Prod.fst = exemplo_ideb :=
  ⟨(left_join_semantics exemplo_ideb exemplo_censo (by decide)).1,
   (left_join_semantics exemplo_ideb exemplo_censo (by decide)).2.1⟩

/-- `modifyAt` preserves row length. -/
lemma modifyAt_length (f : Cell → Cell) (n : ℕ) (l : List Cell) :
    (modifyAt f n l).length = l.length := by
  induction l generalizing n with
  | nil => cases n <;> rfl
  | cons c cs ih =>
    cases n with
    | zero => rfl
    | succ m => simp [modifyAt, ih]

/-- Reading the modified position gives the transformed cell (`f` fixes
null, covering reads past the end of a short row). -/
lemma modifyAt_getD_self (f : Cell → Cell) (hf : f .null = .null) (n : ℕ)
    (l : List Cell) :
    (modifyAt f n l).getD n .null = f (l.getD n .null) := by
  induction l generalizing n with
  | nil => simp [modifyAt, hf]
  | cons c cs ih =>
    cases n with
    | zero => rfl
    | succ m => simpa [modifyAt] using ih m

/-- Reading any other position is unchanged by `modifyAt`. -/
lemma modifyAt_getD_ne (f : Cell → Cell) (m n : ℕ) (hmn : m ≠ n)
    (l : List Cell) (d : Cell) :
    (modifyAt f n l).getD m d = l.getD m d := by
  induction l generalizing m n with
  | nil => cases n <;> rfl
  | cons c cs ih =>
    cases n with
    | zero =>
      cases m with
      | zero => exact absurd rfl hmn
      | succ m' => rfl
    | succ n' =>
      cases m with
      | zero => rfl
      | succ m' => simpa [modifyAt] using ih m' n' (by omega)

/-- Head-unfolding equation for `findIdx?`. -/
lemma findIdx?_cons_eq (p : String → Bool) (a : String) (as : List String) :
    (a :: as).findIdx? p = if p a then some 0 else (as.findIdx? p).map (· + 1) := by
  simp [List.findIdx?_cons]

/-- A successful `findIdx?` points at an element satisfying the predicate. -/
lemma findIdx?_getD (p : String → Bool) (l : List String) (i : ℕ) (d : String)
    (h : l.findIdx? p = some i) : p (l.getD i d) = true := by
  induction l generalizing i with
  | nil => simp [List.findIdx?_nil] at h
  | cons a as ih =>
    rw [findIdx?_cons_eq] at h
    by_cases hp : p a
    · rw [if_pos hp] at h
      cases h
      exact hp
    · rw [if_neg hp] at h
      obtain ⟨j, hj, hji⟩ := Option.map_eq_some'.mp h
      subst hji
      simpa using ih j hj

/-- `coerceCol` does not change the column names. -/
lemma coerceCol_cols (df : DF) (c : String) : (coerceCol df c).cols = df.cols := by
  unfold coerceCol
  split <;> rfl

/-- `coerceCol` does not change the number of rows. -/
lemma coerceCol_rows_length (df : DF) (c : String) :
    (coerceCol df c).rows.length = df.rows.length := by
  unfold coerceCol
  split
  · rfl
  · simp

/-- Coercing column `c` leaves any other column's values untouched. -/
lemma getCol_coerceCol_ne (df : DF) (c c' : String) (hcc : c' ≠ c) :
    getCol (coerceCol df c) c' = getCol df c' := by
  cases hfi : df.cols.findIdx? (· == c) with
  | none => simp only [coerceCol, hfi]
  | some i =>
    simp only [coerceCol, hfi, getCol]
    cases hfj : df.cols.findIdx? (· == c') with
    | none => rfl
    | some j =>
      have hci : df.cols.getD i "" = c := by
        simpa using findIdx?_getD (· == c) df.cols i "" hfi
      have hcj : df.cols.getD j "" = c' := by
        simpa using findIdx?_getD (· == c') df.cols j "" hfj
      have hij : j ≠ i := fun hji => hcc (by rw [← hcj, hji, hci])
      simp only [List.map_map]
      congr 1
      apply List.map_congr_left
      intro r _
      exact modifyAt_getD_ne toNumericCell j i hij r .null

/-- Coercing column `c` maps exactly that column through `toNumericCell`. -/
lemma getCol_coerceCol_self (df : DF) (c : String) :
    getCol (coerceCol df c) c =
      (getCol df c).map (fun cells => cells.map toNumericCell) := by
  cases hfi : df.cols.findIdx? (· == c) with
  | none => simp only [coerceCol, hfi, getCol, Except.map]
  | some i =>
    simp only [coerceCol, hfi, getCol, Except.map, List.map_map]
    congr 1
    apply List.map_congr_left
    intro r _
    exact modifyAt_getD_self toNumericCell rfl i r

/-- The coercion loop does not change the column names. -/
lemma foldl_coerceCol_cols (l : List String) (df : DF) :
    (l.foldl coerceCol df).cols = df.cols := by
  induction l generalizing df with
  | nil => rfl
  | cons a t ih => rw [List.foldl_cons, ih, coerceCol_cols]

/-- The coercion loop does not change the number of rows. -/
lemma foldl_coerceCol_rows_length (l : List String) (df : DF) :
    (l.foldl coerceCol df).rows.length = df.rows.length := by
  induction l generalizing df with
  | nil => rfl
  | cons a t ih => rw [List.foldl_cons, ih, coerceCol_rows_length]

/-- Columns outside the coercion list come out of the loop unchanged. -/
lemma getCol_foldl_not_mem (l : List String) (df : DF) (c : String)
    (h : c ∉ l) :
    getCol (l.foldl coerceCol df) c = getCol df c := by
  induction l generalizing df with
  | nil => rfl
  | cons a t ih =>
    rw [List.foldl_cons, ih _ (fun hc => h (List.mem_cons_of_mem _ hc)),
      getCol_coerceCol_ne df a c (fun hca => h (hca ▸ List.mem_cons_self _ _))]

/-- Columns in the (duplicate-free) coercion list come out of the loop with
every cell passed through `toNumericCell` exactly once. -/
lemma getCol_foldl_mem (l : List String) (hnd : l.Nodup) (df : DF)
    (c : String) (h : c ∈ l) :
    getCol (l.foldl coerceCol df) c =
      (getCol df c).map (fun cells => cells.map toNumericCell) := by
  induction l generalizing df with
  | nil => cases h
  | cons a t ih =>
    rw [List.nodup_cons] at hnd
    rw [List.foldl_cons]
    by_cases hca : c = a
    · subst hca
      rw [getCol_foldl_not_mem t _ c hnd.1, getCol_coerceCol_self]
    · have hct : c ∈ t := by
        cases List.mem_cons.mp h with
        | inl h' => exact absurd h' hca
        | inr h' => exact h'
      rw [ih hnd.2 _ hct, getCol_coerceCol_ne df a c hca]

/-- C6: type coercion maps every cell of every column in the fixed numeric
list through the total function `toNumericCell` — a value that fails to
parse becomes null, one that parses becomes its number, and no exception
is possible — while removing no row, leaving columns outside the list
unchanged, and running before the renaming step inside
`load_and_prepare_data`. -/
theorem coercion_spec (df : DF) :
    ((coerceNumerics df).cols = df.cols ∧
     (coerceNumerics df).rows.length = df.rows.length) ∧
    (∀ s : String, parseNum s = none → toNumericCell (.text s) = .null) ∧
    (∀ s : String, ∀ q : ℚ, parseNum s = some q → toNumericCell (.text s) = .num q) ∧
    (∀ c ∈ numeric_cols,
      getCol (coerceNumerics df) c =
        (getCol df c).map (fun cells => cells.map toNumericCell)) ∧
    (∀ c : String, c ∉ numeric_cols → getCol (coerceNumerics df) c = getCol df c) ∧
    (∀ r : Except String DF,
      (load_and_prepare_data r).1 =
        rename_columns friendly_names (coerceNumerics (run_query r))) := by
  refine ⟨⟨foldl_coerceCol_cols _ _, foldl_coerceCol_rows_length _ _⟩,
    ?_, ?_, ?_, ?_, fun _ => rfl⟩
  · intro s hs
    simp [toNumericCell, hs]
  · intro s q hs
    simp [toNumericCell, hs]
  · intro c hc
    exact getCol_foldl_mem numeric_cols (by decide) df c hc
  · intro c hc
    exact getCol_foldl_not_mem numeric_cols df c hc

/-- Witness for `coercion_spec` on a two-column frame: the text "6" in the
listed column 'ideb_2023' becomes the number 6, the unparseable text "abc"
coerces to null, and the unlisted column 'nome_munic' is untouched. -/
theorem coercion_spec_witness :
    toNumericCell (.text "abc") = .null ∧
    getCol (coerceNumerics ⟨["nome_munic", "ideb_2023"], [[.text "X", .text "6"]]⟩)
      "ideb_2023" = .ok [.num 6] ∧
    getCol (coerceNumerics ⟨["nome_munic", "ideb_2023"], [[.text "X", .text "6"]]⟩)
      "nome_munic" = .ok [.text "X"] := by
  have h := coercion_spec ⟨["nome_munic", "ideb_2023"], [[.text "X", .text "6"]]⟩
  refine ⟨h.2.1 "abc" rfl, ?_, ?_⟩
  · rw [h.2.2.2.1 "ideb_2023" (by decide)]
    rfl
  · rw [h.2.2.2.2.1 "nome_munic" (by decide)]
    rfl

end Dashboard
